import Mathlib

/-!
# Verification of the profile-image upload and crop pipeline

Shallow embedding of the client-side profile-image acquisition pipeline
(the upload handler and the crop handler, two cooperating scripts in the
same bundle) and proofs of the specified properties.

The two scripts share the same DOM elements: the file input
(`id_profile_image`), the delete-intent checkbox (`delete_profile_image`),
the drop zone, the existing-image container, the live-preview container and
the crop modal.  Their combined mutable state is modelled as one record
(`UIState`); user gestures and the resolution callbacks of the two
asynchronous boundaries (FileReader decode, canvas-to-blob encode) are
modelled as events (`Event`) with a deterministic step function
(`stepEvent`).  Opaque platform data (blob bytes, data URLs) is modelled
abstractly: only the metadata the scripts inspect is kept.
-/

namespace AgoraProfileImage

/-- A browser `File`: only the metadata the scripts read (declared MIME
type, byte size) plus a name. -/
structure File where
  name : String
  type : String
  size : Nat
deriving DecidableEq, Repr

/-- Constant `MAX_FILE_SIZE = 5 * 1024 * 1024` from the upload handler. -/
def MAX_FILE_SIZE : Nat := 5 * 1024 * 1024

/-- Constant `ALLOWED_TYPES` from the upload handler. -/
def ALLOWED_TYPES : List String :=
  ["image/jpeg", "image/png", "image/webp", "image/heic", "image/heif",
   "image/jxl", "image/jp2"]

/-- The rejection message naming the allowed set. -/
def TYPE_ERROR_MSG : String :=
  "Unsupported image format. Allowed: JPEG, PNG, WebP, HEIC, JPEGXL, JPEG2000."

/-- The rejection message stating the size ceiling. -/
def SIZE_ERROR_MSG : String :=
  "Image file too large. Maximum size is 5MB."

/-- Function `validateFile` from the upload handler: MIME allow-list first, then the
size ceiling; `none` means accepted. -/
def validateFile (file : File) : Option String :=
  if file.type ∉ ALLOWED_TYPES then
    some TYPE_ERROR_MSG
  else if file.size > MAX_FILE_SIZE then
    some SIZE_ERROR_MSG
  else
    none

/-- C3: `validate` applies its rules in order with first failure winning: a
MIME type outside the allow-list rejects with the message naming the
allowed set (even if the file is also oversize); an allowed type that is
oversize rejects with the message stating the ceiling; an allowed type
within the ceiling is accepted with no reason. -/
theorem validateFile_rules_in_order (f : File) :
    (f.type ∉ ALLOWED_TYPES → validateFile f = some TYPE_ERROR_MSG) ∧
    (f.type ∈ ALLOWED_TYPES → f.size > MAX_FILE_SIZE →
      validateFile f = some SIZE_ERROR_MSG) ∧
    (f.type ∈ ALLOWED_TYPES → f.size ≤ MAX_FILE_SIZE →
      validateFile f = none) := by
  refine ⟨fun hty => ?_, fun hty hsz => ?_, fun hty hsz => ?_⟩
  · simp [validateFile, hty]
  · simp [validateFile, hty, hsz]
  · simp [validateFile, hty, Nat.not_lt.mpr hsz]

/-- Witness for C3: a 6 MB `image/gif` file (disallowed type, also
oversize) is rejected with the type message; a 6 MB `image/jpeg` file with
the size message; a small `image/jpeg` file is accepted. -/
theorem validateFile_rules_in_order_witness :
    validateFile ⟨"a.gif", "image/gif", 6 * 1024 * 1024⟩ = some TYPE_ERROR_MSG ∧
    validateFile ⟨"b.jpg", "image/jpeg", 6 * 1024 * 1024⟩ = some SIZE_ERROR_MSG ∧
    validateFile ⟨"c.jpg", "image/jpeg", 1024⟩ = none :=
  ⟨(validateFile_rules_in_order ⟨"a.gif", "image/gif", 6 * 1024 * 1024⟩).1
      (by decide),
   (validateFile_rules_in_order ⟨"b.jpg", "image/jpeg", 6 * 1024 * 1024⟩).2.1
      (by decide) (by decide),
   (validateFile_rules_in_order ⟨"c.jpg", "image/jpeg", 1024⟩).2.2
      (by decide) (by decide)⟩

/-- The option object passed to `new Cropper(cropImage, {...})` in
`initCropper`.  Fractional option values are modelled exactly as rationals
(`autoCropArea: 0.8` is `4/5`). -/
structure CropperConfig where
  aspectRatio : ℚ
  viewMode : Nat
  dragMode : String
  autoCropArea : ℚ
  restore : Bool
  guides : Bool
  center : Bool
  highlight : Bool
  cropBoxMovable : Bool
  cropBoxResizable : Bool
  toggleDragModeOnDblclick : Bool
deriving DecidableEq, Repr

/-- The literal option values from `initCropper`. -/
def cropperConfig : CropperConfig :=
  { aspectRatio := 1
    viewMode := 1
    dragMode := "move"
    autoCropArea := 4/5
    restore := false
    guides := true
    center := true
    highlight := false
    cropBoxMovable := true
    cropBoxResizable := true
    toggleDragModeOnDblclick := false }

/-- A live cropper editor instance: an identity (to distinguish successive
instances), the bound source image, and the configuration it was created
with. -/
structure CropperInst where
  id : Nat
  src : String
  config : CropperConfig
deriving DecidableEq, Repr

/-- Observable create/destroy actions of cropper editor instances, used to
state in which order `initCropper` tears down and builds editors. -/
inductive CropAction where
  | destroy (id : Nat)
  | create (id : Nat)
deriving DecidableEq, Repr

/-- Function `initCropper` from the crop handler: destroys the previous editor if
one exists, then instantiates a new editor on the given source with the
fixed configuration.  Returns the new editor slot together with the list of
create/destroy actions in the order they are performed (`fresh` is the
identity given to the new instance). -/
def initCropper (old : Option CropperInst) (src : String) (fresh : Nat) :
    Option CropperInst × List CropAction :=
  match old with
  | some c =>
      (some { id := fresh, src := src, config := cropperConfig },
       [CropAction.destroy c.id, CropAction.create fresh])
  | none =>
      (some { id := fresh, src := src, config := cropperConfig },
       [CropAction.create fresh])

/-- The crop rectangle currently chosen inside the editor; arbitrary
dimensions, since the user may drag/resize it and sources have arbitrary
aspect ratios. -/
structure CropRegion where
  x : Nat
  y : Nat
  width : Nat
  height : Nat
deriving DecidableEq, Repr

/-- A canvas as requested from `cropper.getCroppedCanvas`: only the
dimensions and smoothing options the script sets are modelled (no pixel
content). -/
structure Canvas where
  width : Nat
  height : Nat
  imageSmoothingEnabled : Bool
  imageSmoothingQuality : String
deriving DecidableEq, Repr

/-- Call `cropper.getCroppedCanvas` with width 2048 and height 2048: per the
cropperjs contract, when both `width` and `height` are given the produced
canvas has exactly those dimensions, whatever the crop region is (the
region content is scaled; pixels are not modelled). -/
def getCroppedCanvas (_region : CropRegion) : Canvas :=
  { width := 2048
    height := 2048
    imageSmoothingEnabled := true
    imageSmoothingQuality := "high" }

/-- The encoded binary payload produced by `canvas.toBlob`: MIME type,
pixel dimensions, encode quality and byte size (the bytes themselves are
opaque). -/
structure Blob where
  mimeType : String
  width : Nat
  height : Nat
  quality : ℚ
  size : Nat
deriving DecidableEq, Repr

/-- Call `canvas.toBlob(cb, mime, quality)`: whether the platform produces a
blob is environment-controlled, modelled by `result` (`some n` = a blob of
`n` bytes is produced; `none` = the callback receives `null`). -/
def canvasToBlob (canvas : Canvas) (mime : String) (quality : ℚ)
    (result : Option Nat) : Option Blob :=
  result.map fun n =>
    { mimeType := mime, width := canvas.width, height := canvas.height,
      quality := quality, size := n }

/-- The fixed encode quality `0.95` passed to `canvas.toBlob`. -/
def WEBP_QUALITY : ℚ := 95/100

/-- Function `getCroppedImage` from the crop handler, as the summary of its promise:
rejects if no cropper is initialized; otherwise renders the current region
to a 2048x2048 canvas and encodes it as `image/webp` at quality 0.95,
rejecting when the platform yields no blob. -/
def getCroppedImage (cropper : Option CropperInst) (region : CropRegion)
    (encodeResult : Option Nat) : Except String Blob :=
  match cropper with
  | none => Except.error "Cropper not initialized"
  | some _ =>
      let canvas := getCroppedCanvas region
      match canvasToBlob canvas "image/webp" WEBP_QUALITY encodeResult with
      | some blob => Except.ok blob
      | none => Except.error "Failed to create blob"

/-- C4: for every open session, crop region and blob size, a successful
encode yields exactly an `image/webp` payload of 2048x2048 pixels at
quality 0.95; and when the canvas cannot produce a binary payload the
confirm fails with an encoding error instead of substituting a blank
result. -/
theorem getCroppedImage_normalized (c : CropperInst) (region : CropRegion)
    (n : Nat) :
    getCroppedImage (some c) region (some n) =
      Except.ok { mimeType := "image/webp", width := 2048, height := 2048,
                  quality := WEBP_QUALITY, size := n } ∧
    getCroppedImage (some c) region none =
      Except.error "Failed to create blob" :=
  ⟨rfl, rfl⟩

/-- C5: `initCropper` always yields exactly one live editor, the fresh one
with the fixed configuration (square 1:1 aspect lock, crop box confined in
the canvas via `viewMode 1`, default crop covering 80% of the canvas area,
drag/resize enabled); when an editor was open, its destruction is performed
strictly before the new instantiation, and no previous editor survives. -/
theorem initCropper_at_most_one (old : Option CropperInst) (src : String)
    (fresh : Nat) :
    (initCropper old src fresh).1 =
      some { id := fresh, src := src, config := cropperConfig } ∧
    (∀ c, old = some c →
      (initCropper old src fresh).2 =
        [CropAction.destroy c.id, CropAction.create fresh]) ∧
    (old = none → (initCropper old src fresh).2 = [CropAction.create fresh]) ∧
    cropperConfig.aspectRatio = 1 ∧
    cropperConfig.viewMode = 1 ∧
    cropperConfig.autoCropArea = 4/5 ∧
    cropperConfig.cropBoxMovable = true ∧
    cropperConfig.cropBoxResizable = true := by
  refine ⟨?_, ?_, ?_, rfl, rfl, by norm_num [cropperConfig], rfl, rfl⟩
  · cases old <;> rfl
  · intro c hc; subst hc; rfl
  · intro hnone; subst hnone; rfl

/-- Witness for C5: opening over an existing editor (id 0) destroys it
before creating the fresh editor (id 1); opening over no editor only
creates. -/
theorem initCropper_at_most_one_witness :
    (initCropper (some { id := 0, src := "a", config := cropperConfig })
        "b" 1).2 =
      [CropAction.destroy 0, CropAction.create 1] ∧
    (initCropper none "b" 1).2 = [CropAction.create 1] :=
  ⟨(initCropper_at_most_one
      (some { id := 0, src := "a", config := cropperConfig }) "b" 1).2.1
      { id := 0, src := "a", config := cropperConfig } rfl,
   (initCropper_at_most_one (none : Option CropperInst) "b" 1).2.2.1 rfl⟩

/-- The spec's `UploadState`: the single source of truth for what the form
will submit. -/
inductive UploadState where
  | Empty
  | Existing
  | Pending
  | Deleted
deriving DecidableEq, Repr

/-- Abstract model of `FileReader.readAsDataURL` applied to a `File`: the
resulting data URL is opaque; only which file it came from matters. -/
def fileDataUrl (f : File) : String :=
  "data:" ++ f.type ++ ";name=" ++ f.name

/-- Abstract model of `FileReader.readAsDataURL` applied to a `Blob`. -/
def blobDataUrl (b : Blob) : String :=
  "data:" ++ b.mimeType ++ ";size=" ++ toString b.size

/-- The blocking notice `alert("Failed to crop image. Please try again.")`
raised by the catch branch of `handleCropConfirm`. -/
def CROP_FAIL_ALERT : String := "Failed to crop image. Please try again."

/-- The combined mutable state of the upload and crop scripts: the form
fields they write (`fileInputFiles`, `deleteChecked`), the `hidden` CSS
class of the four regions, the cropper slot, the image sources, the emitted
blocking notices, a fresh-identity counter for editor instances, the
pending resolutions of the three asynchronous callbacks in flight, and the
spec-level `UploadState` ghost tag (`tag`, tracked per the spec's
lifecycle: `Pending` once a crop commit's decode resolves, `Deleted` on
delete-button activation). -/
structure UIState where
  fileInputFiles : List File
  deleteChecked : Bool
  dropZoneHidden : Bool
  existingHidden : Bool
  previewHidden : Bool
  cropModalHidden : Bool
  cropper : Option CropperInst
  cropImageSrc : String
  previewSrc : String
  alerts : List String
  nextCropperId : Nat
  pendingSelectRead : Option File
  pendingEncode : Option Canvas
  pendingCommitRead : Option Blob
  tag : UploadState
deriving DecidableEq, Repr

/-- Function `handleFileSelect` from the upload handler: validation failure raises a
blocking notice and discards the candidate; on success the raw file is
written synchronously into the form's file input (a one-file
`DataTransfer`) and the preview `FileReader` decode is started
(`showPreview`). -/
def handleFileSelect (f : File) (s : UIState) : UIState :=
  match validateFile f with
  | some err => { s with alerts := err :: s.alerts }
  | none =>
      { s with fileInputFiles := [f], pendingSelectRead := some f }

/-- The `reader.onload` callback of `showPreview`, in the configuration of
this bundle where the crop script has registered
`window.showProfileImageCrop`: it calls `showCropModal(imageSrc)`, which
removes `hidden` from the modal and runs `initCropper`. -/
def selectReadOnload (s : UIState) : UIState :=
  match s.pendingSelectRead with
  | none => s
  | some f =>
      let src := fileDataUrl f
      { s with
          pendingSelectRead := none
          cropModalHidden := false
          cropImageSrc := src
          cropper := (initCropper s.cropper src s.nextCropperId).1
          nextCropperId := s.nextCropperId + 1 }

/-- The delete-button click handler (the spec's `markDeleted`): sets the
delete-intent checkbox, hides the preview and existing-image containers,
shows the drop zone, and clears the file input. -/
def deleteBtnClick (s : UIState) : UIState :=
  { s with
      deleteChecked := true
      previewHidden := true
      existingHidden := true
      dropZoneHidden := false
      fileInputFiles := []
      tag := UploadState.Deleted }

/-- Function `hideCropModal` from the crop handler: adds `hidden` to the modal and
destroys the cropper if one is live (the spec's `cancel`/`destroy`). -/
def hideCropModal (s : UIState) : UIState :=
  { s with cropModalHidden := true, cropper := none }

/-- The synchronous prefix of `handleCropConfirm`: the no-cropper guard,
then `getCroppedImage` up to the point where `canvas.toBlob` is started —
the 2048x2048 canvas is captured from the live editor at the current
region and the encode is left in flight. -/
def confirmStart (region : CropRegion) (s : UIState) : UIState :=
  match s.cropper with
  | none => s
  | some _ => { s with pendingEncode := some (getCroppedCanvas region) }

/-- The `File` constructed from the encoded blob in `handleCropConfirm`:
`new File([blob], "profile-image.webp", { type: "image/webp" })`. -/
def blobToFile (b : Blob) : File :=
  { name := "profile-image.webp", type := "image/webp", size := b.size }

/-- The synchronous continuation of `handleCropConfirm` after
`await getCroppedImage()` succeeds: writes the synthetic webp file into the
file input, starts the preview `FileReader` decode of the blob, and calls
`hideCropModal`. -/
def confirmApplyResult (blob : Blob) (s : UIState) : UIState :=
  { s with
      fileInputFiles := [blobToFile blob]
      pendingCommitRead := some blob
      cropModalHidden := true
      cropper := none }

/-- The `canvas.toBlob` callback resolving, continuing
`handleCropConfirm`: with a blob, the try block continues with
`confirmApplyResult`; with `null`, the promise rejects and the catch branch
raises the blocking notice and changes nothing else. -/
def encodeOnResolve (result : Option Nat) (s : UIState) : UIState :=
  match s.pendingEncode with
  | none => s
  | some canvas =>
      match canvasToBlob canvas "image/webp" WEBP_QUALITY result with
      | some blob => confirmApplyResult blob { s with pendingEncode := none }
      | none =>
          { s with pendingEncode := none
                   alerts := CROP_FAIL_ALERT :: s.alerts }

/-- The `reader.onload` callback inside `handleCropConfirm`: updates the
preview image source, shows the live preview, hides the existing-image
container and the drop zone, and clears the delete-intent checkbox.  Per
the spec's lifecycle the commit is observably complete here, so the ghost
tag becomes `Pending`. -/
def commitReadOnload (s : UIState) : UIState :=
  match s.pendingCommitRead with
  | none => s
  | some blob =>
      { s with
          pendingCommitRead := none
          previewSrc := blobDataUrl blob
          previewHidden := false
          existingHidden := true
          dropZoneHidden := true
          deleteChecked := false
          tag := UploadState.Pending }

/-- The spec's `commitFile`: the complete effect of a successful crop
confirmation resolution on the form — `confirmApplyResult` followed by its
`reader.onload`. -/
def commitFile (blob : Blob) (s : UIState) : UIState :=
  commitReadOnload (confirmApplyResult blob s)

/-- The user gestures and asynchronous resolution callbacks driving the two
scripts.  `backdropClick onBackdrop` is a click on the crop modal where
`onBackdrop` states whether `e.target === cropModal`; `confirmClick`
carries the crop region currently in the editor; `encodeResolve` carries
the platform's `toBlob` outcome. -/
inductive Event where
  | selectFile (f : File)
  | selectReadResolve
  | deleteClick
  | cancelClick
  | backdropClick (onBackdrop : Bool)
  | confirmClick (region : CropRegion)
  | encodeResolve (result : Option Nat)
  | commitReadResolve
deriving DecidableEq, Repr

/-- The deterministic step function combining both scripts' handlers. -/
def stepEvent (s : UIState) (e : Event) : UIState :=
  match e with
  | Event.selectFile f => handleFileSelect f s
  | Event.selectReadResolve => selectReadOnload s
  | Event.deleteClick => deleteBtnClick s
  | Event.cancelClick => hideCropModal s
  | Event.backdropClick onBackdrop =>
      if onBackdrop then hideCropModal s else s
  | Event.confirmClick region => confirmStart region s
  | Event.encodeResolve result => encodeOnResolve result s
  | Event.commitReadResolve => commitReadOnload s

/-- Modelled from the spec: the initial page state rendered by the
server-side template (the template is not under src/).  Per the spec,
`UploadState` starts at `Existing` when the profile already has an image
(existing-image view visible), else at `Empty` (drop zone visible); the
crop modal starts hidden, the form fields start empty and unchecked, and no
cropper or asynchronous work exists yet. -/
def initState (hasExisting : Bool) : UIState :=
  { fileInputFiles := []
    deleteChecked := false
    dropZoneHidden := hasExisting
    existingHidden := !hasExisting
    previewHidden := true
    cropModalHidden := true
    cropper := none
    cropImageSrc := ""
    previewSrc := ""
    alerts := []
    nextCropperId := 0
    pendingSelectRead := none
    pendingEncode := none
    pendingCommitRead := none
    tag := if hasExisting then UploadState.Existing else UploadState.Empty }

/-- The states reachable from either initial page state by any sequence of
gestures and resolution callbacks. -/
inductive Reachable : UIState → Prop where
  | init (hasExisting : Bool) : Reachable (initState hasExisting)
  | step {s : UIState} (e : Event) : Reachable s → Reachable (stepEvent s e)

/-- Visibility of the three non-modal regions of a state, as
(drop zone, existing-image view, live preview); a region is visible when
its container does not carry the `hidden` class. -/
def regionsOf (s : UIState) : Bool × Bool × Bool :=
  (!s.dropZoneHidden, !s.existingHidden, !s.previewHidden)

/-- The spec's visibility mapping for the three non-modal regions as a pure
function of `UploadState`. -/
def renderRegions : UploadState → Bool × Bool × Bool
  | UploadState.Empty => (true, false, false)
  | UploadState.Existing => (false, true, false)
  | UploadState.Pending => (false, false, true)
  | UploadState.Deleted => (true, false, false)

/-- At most one of the three regions is visible. -/
def atMostOneVisible (t : Bool × Bool × Bool) : Prop :=
  ¬(t.1 = true ∧ t.2.1 = true) ∧ ¬(t.1 = true ∧ t.2.2 = true) ∧
  ¬(t.2.1 = true ∧ t.2.2 = true)

/-- Every event preserves the agreement between the rendered region
visibilities and the spec mapping applied to the `UploadState` tag. -/
theorem regions_step_preserved (s : UIState) (e : Event)
    (h : regionsOf s = renderRegions s.tag) :
    regionsOf (stepEvent s e) = renderRegions (stepEvent s e).tag := by
  cases e with
  | selectFile f =>
      cases hv : validateFile f <;>
        simpa [stepEvent, handleFileSelect, hv, regionsOf] using h
  | selectReadResolve =>
      cases hp : s.pendingSelectRead <;>
        simpa [stepEvent, selectReadOnload, hp, regionsOf] using h
  | deleteClick =>
      simp [stepEvent, deleteBtnClick, regionsOf, renderRegions]
  | cancelClick =>
      simpa [stepEvent, hideCropModal, regionsOf] using h
  | backdropClick onBackdrop =>
      cases onBackdrop <;>
        simpa [stepEvent, hideCropModal, regionsOf] using h
  | confirmClick region =>
      cases hc : s.cropper <;>
        simpa [stepEvent, confirmStart, hc, regionsOf] using h
  | encodeResolve result =>
      cases hp : s.pendingEncode with
      | none => simpa [stepEvent, encodeOnResolve, hp, regionsOf] using h
      | some canvas =>
          cases result <;>
            simpa [stepEvent, encodeOnResolve, hp, canvasToBlob,
                   confirmApplyResult, regionsOf] using h
  | commitReadResolve =>
      cases hp : s.pendingCommitRead with
      | none => simpa [stepEvent, commitReadOnload, hp, regionsOf] using h
      | some blob =>
          simp [stepEvent, commitReadOnload, hp, regionsOf, renderRegions]

/-- C6: in every reachable state the visibility of the drop zone, the
existing-image view and the live preview equals the spec's pure mapping of
the current `UploadState` (Empty and Deleted show only the drop zone,
Existing only the existing-image view, Pending only the live preview); in
particular at most one of the three regions is ever visible. -/
theorem reachable_regions_pure (s : UIState) (h : Reachable s) :
    regionsOf s = renderRegions s.tag ∧ atMostOneVisible (regionsOf s) := by
  have key : regionsOf s = renderRegions s.tag := by
    induction h with
    | init hasExisting => cases hasExisting <;> decide
    | step e _ ih => exact regions_step_preserved _ e ih
  refine ⟨key, ?_⟩
  rw [key]
  cases s.tag <;> simp [atMostOneVisible, renderRegions]

/-- Witness for C6: the empty-profile initial state is reachable, its
regions match the mapping of `Empty`, and only one region is visible. -/
theorem reachable_regions_pure_witness :
    regionsOf (initState false) = renderRegions (initState false).tag ∧
    atMostOneVisible (regionsOf (initState false)) :=
  reachable_regions_pure (initState false) (Reachable.init false)

/-- Amended C2: after `commitFile` the delete-intent flag is false and the
file field holds exactly the synthetic webp file; after `markDeleted` (the
delete-button handler) the flag is true and the file field is empty; both
operations are idempotent; and immediately after either operation the flag
and a non-empty file field are never both true.  (The claim's stronger
"every reachable state" form fails, see the counterexample.) -/
theorem commit_delete_postconditions (s : UIState) (blob : Blob) :
    (commitFile blob s).deleteChecked = false ∧
    (commitFile blob s).fileInputFiles = [blobToFile blob] ∧
    (deleteBtnClick s).deleteChecked = true ∧
    (deleteBtnClick s).fileInputFiles = [] ∧
    commitFile blob (commitFile blob s) = commitFile blob s ∧
    deleteBtnClick (deleteBtnClick s) = deleteBtnClick s ∧
    ¬((commitFile blob s).deleteChecked = true ∧
      (commitFile blob s).fileInputFiles ≠ []) ∧
    ¬((deleteBtnClick s).deleteChecked = true ∧
      (deleteBtnClick s).fileInputFiles ≠ []) := by
  refine ⟨rfl, rfl, rfl, rfl, rfl, rfl, ?_, ?_⟩
  · simp [commitFile, confirmApplyResult, commitReadOnload]
  · simp [deleteBtnClick]

/-- A valid candidate file used in the concrete scenarios. -/
def samplePhoto : File :=
  { name := "me.jpg", type := "image/jpeg", size := 123456 }

/-- A crop region used in the concrete scenarios (arbitrary, non-square). -/
def sampleRegion : CropRegion :=
  { x := 10, y := 20, width := 300, height := 150 }

/-- The state reached from the empty-profile initial state by selecting a
valid file and letting the preview decode resolve: the crop modal is open
on a live session holding the raw file in the form. -/
def openSessionState : UIState :=
  stepEvent (stepEvent (initState false) (Event.selectFile samplePhoto))
    Event.selectReadResolve

/-- State `openSessionState` after confirm is clicked: the canvas-to-blob encode
is in flight. -/
def pendingEncodeState : UIState :=
  stepEvent openSessionState (Event.confirmClick sampleRegion)

/-- Counterexample to C2 as stated: starting from a profile with an
existing image, the sequence delete-click, select of a valid file,
preview-decode resolution, crop-cancel reaches a quiescent state (no
asynchronous work in flight) in which the delete-intent flag is true AND
the file field still holds the selected raw file — the selection handler
writes the file without clearing the flag, and crop-cancel restores
neither. -/
theorem delete_select_cancel_both_true :
    Reachable (stepEvent (stepEvent (stepEvent (stepEvent (initState true)
        Event.deleteClick) (Event.selectFile samplePhoto))
        Event.selectReadResolve) Event.cancelClick) ∧
    (stepEvent (stepEvent (stepEvent (stepEvent (initState true)
        Event.deleteClick) (Event.selectFile samplePhoto))
        Event.selectReadResolve) Event.cancelClick).deleteChecked = true ∧
    (stepEvent (stepEvent (stepEvent (stepEvent (initState true)
        Event.deleteClick) (Event.selectFile samplePhoto))
        Event.selectReadResolve) Event.cancelClick).fileInputFiles =
      [samplePhoto] ∧
    (stepEvent (stepEvent (stepEvent (stepEvent (initState true)
        Event.deleteClick) (Event.selectFile samplePhoto))
        Event.selectReadResolve) Event.cancelClick).pendingSelectRead =
      none ∧
    (stepEvent (stepEvent (stepEvent (stepEvent (initState true)
        Event.deleteClick) (Event.selectFile samplePhoto))
        Event.selectReadResolve) Event.cancelClick).pendingEncode = none ∧
    (stepEvent (stepEvent (stepEvent (stepEvent (initState true)
        Event.deleteClick) (Event.selectFile samplePhoto))
        Event.selectReadResolve) Event.cancelClick).pendingCommitRead =
      none :=
  ⟨Reachable.step Event.cancelClick (Reachable.step Event.selectReadResolve
      (Reachable.step (Event.selectFile samplePhoto)
        (Reachable.step Event.deleteClick (Reachable.init true)))),
   by decide, by decide, by decide, by decide, by decide⟩

/-- State `pendingEncodeState` after the user cancels the crop modal while the
encode is still in flight: the session is destroyed and the modal hidden,
but the encode has not resolved. -/
def canceledMidEncodeState : UIState :=
  stepEvent pendingEncodeState Event.cancelClick

/-- State `canceledMidEncodeState` after the stale encode resolves successfully
(a 777-byte blob) and its preview decode resolves. -/
def staleAppliedState : UIState :=
  stepEvent (stepEvent canceledMidEncodeState (Event.encodeResolve (some 777)))
    Event.commitReadResolve

/-- C1 fails on the code: `handleCropConfirm` performs no liveness re-check
after `await getCroppedImage()`, so when the modal is canceled while the
encode is in flight the stale resolution is still applied.  Concretely:
after the cancel the session is destroyed, the modal is hidden, the form
still holds the raw selected file and the preview is hidden; yet once the
stale encode and its preview decode resolve, the file field has been
overwritten with the synthetic webp file, the live preview is shown, the
drop zone is hidden and the delete-intent flag is written — all mutations
the claim says cannot happen. -/
theorem stale_encode_resolution_mutates_state :
    Reachable staleAppliedState ∧
    canceledMidEncodeState.cropper = none ∧
    canceledMidEncodeState.cropModalHidden = true ∧
    canceledMidEncodeState.fileInputFiles = [samplePhoto] ∧
    canceledMidEncodeState.previewHidden = true ∧
    staleAppliedState.fileInputFiles =
      [{ name := "profile-image.webp", type := "image/webp", size := 777 }] ∧
    staleAppliedState.previewHidden = false ∧
    staleAppliedState.dropZoneHidden = true ∧
    staleAppliedState.deleteChecked = false ∧
    staleAppliedState.tag = UploadState.Pending :=
  ⟨Reachable.step Event.commitReadResolve
      (Reachable.step (Event.encodeResolve (some 777))
        (Reachable.step Event.cancelClick
          (Reachable.step (Event.confirmClick sampleRegion)
            (Reachable.step Event.selectReadResolve
              (Reachable.step (Event.selectFile samplePhoto)
                (Reachable.init false)))))),
   by decide, by decide, by decide, by decide, by decide, by decide,
   by decide, by decide, by decide⟩

/-- C7: when the canvas-to-blob encode fails, the catch branch of
`handleCropConfirm` raises exactly the blocking notice and leaves
everything else unchanged: the form's file field, the delete-intent flag,
the three region visibilities, the preview source, the `UploadState` tag —
and the crop modal and its live session are left as they were, available
for retry. -/
theorem encode_failure_preserves_state (s : UIState) (canvas : Canvas)
    (h : s.pendingEncode = some canvas) :
    (stepEvent s (Event.encodeResolve none)).alerts =
      CROP_FAIL_ALERT :: s.alerts ∧
    (stepEvent s (Event.encodeResolve none)).fileInputFiles =
      s.fileInputFiles ∧
    (stepEvent s (Event.encodeResolve none)).deleteChecked =
      s.deleteChecked ∧
    (stepEvent s (Event.encodeResolve none)).dropZoneHidden =
      s.dropZoneHidden ∧
    (stepEvent s (Event.encodeResolve none)).existingHidden =
      s.existingHidden ∧
    (stepEvent s (Event.encodeResolve none)).previewHidden =
      s.previewHidden ∧
    (stepEvent s (Event.encodeResolve none)).previewSrc = s.previewSrc ∧
    (stepEvent s (Event.encodeResolve none)).cropModalHidden =
      s.cropModalHidden ∧
    (stepEvent s (Event.encodeResolve none)).cropper = s.cropper ∧
    (stepEvent s (Event.encodeResolve none)).tag = s.tag := by
  simp [stepEvent, encodeOnResolve, h, canvasToBlob]

/-- Witness for C7: in the concrete in-flight-encode state the failure
resolution emits the notice and preserves the open session. -/
theorem encode_failure_preserves_state_witness :
    pendingEncodeState.pendingEncode =
      some (getCroppedCanvas sampleRegion) ∧
    ((stepEvent pendingEncodeState (Event.encodeResolve none)).alerts =
      CROP_FAIL_ALERT :: pendingEncodeState.alerts ∧
    (stepEvent pendingEncodeState
        (Event.encodeResolve none)).fileInputFiles =
      pendingEncodeState.fileInputFiles ∧
    (stepEvent pendingEncodeState (Event.encodeResolve none)).deleteChecked =
      pendingEncodeState.deleteChecked ∧
    (stepEvent pendingEncodeState
        (Event.encodeResolve none)).dropZoneHidden =
      pendingEncodeState.dropZoneHidden ∧
    (stepEvent pendingEncodeState
        (Event.encodeResolve none)).existingHidden =
      pendingEncodeState.existingHidden ∧
    (stepEvent pendingEncodeState (Event.encodeResolve none)).previewHidden =
      pendingEncodeState.previewHidden ∧
    (stepEvent pendingEncodeState (Event.encodeResolve none)).previewSrc =
      pendingEncodeState.previewSrc ∧
    (stepEvent pendingEncodeState
        (Event.encodeResolve none)).cropModalHidden =
      pendingEncodeState.cropModalHidden ∧
    (stepEvent pendingEncodeState (Event.encodeResolve none)).cropper =
      pendingEncodeState.cropper ∧
    (stepEvent pendingEncodeState (Event.encodeResolve none)).tag =
      pendingEncodeState.tag) :=
  ⟨by decide,
   encode_failure_preserves_state pendingEncodeState
     (getCroppedCanvas sampleRegion) (by decide)⟩

/-- Counterexample to C8 as stated: in the concrete state where the modal
is open on a live session and the encode is in flight, a failed encode
settles the confirm — yet the session is not destroyed and the modal is
not hidden (the catch branch of `handleCropConfirm` never reaches
`hideCropModal`). -/
theorem confirm_failure_leaves_session_open :
    pendingEncodeState.cropModalHidden = false ∧
    (stepEvent pendingEncodeState
        (Event.encodeResolve none)).cropModalHidden = false ∧
    (stepEvent pendingEncodeState (Event.encodeResolve none)).cropper ≠
      none := by
  refine ⟨by decide, by decide, by decide⟩

/-- Amended C8: the confirm destroys the session and hides the modal
exactly when the encode succeeds; when the encode fails the session and the
modal are left as they were (open, for retry). -/
theorem confirm_settles_session_by_outcome (s : UIState) (canvas : Canvas)
    (n : Nat) (h : s.pendingEncode = some canvas) :
    (stepEvent s (Event.encodeResolve (some n))).cropper = none ∧
    (stepEvent s (Event.encodeResolve (some n))).cropModalHidden = true ∧
    (stepEvent s (Event.encodeResolve none)).cropper = s.cropper ∧
    (stepEvent s (Event.encodeResolve none)).cropModalHidden =
      s.cropModalHidden := by
  simp [stepEvent, encodeOnResolve, h, canvasToBlob, confirmApplyResult]

/-- Witness for the amended C8 at the concrete in-flight-encode state. -/
theorem confirm_settles_session_by_outcome_witness :
    (stepEvent pendingEncodeState (Event.encodeResolve (some 64))).cropper =
      none ∧
    (stepEvent pendingEncodeState
        (Event.encodeResolve (some 64))).cropModalHidden = true ∧
    (stepEvent pendingEncodeState (Event.encodeResolve none)).cropper =
      pendingEncodeState.cropper ∧
    (stepEvent pendingEncodeState
        (Event.encodeResolve none)).cropModalHidden =
      pendingEncodeState.cropModalHidden :=
  confirm_settles_session_by_outcome pendingEncodeState
    (getCroppedCanvas sampleRegion) 64 (by decide)

/-- C9: a candidate that passes validation is written synchronously, raw
and un-cropped, into the form's file field, while the crop modal and the
session are untouched (the modal opens only later, from the preview-decode
callback); and after the modal has opened and been canceled the file field
still holds the raw selected file. -/
theorem select_writes_raw_file_first (s : UIState) (f : File)
    (h : validateFile f = none) :
    (stepEvent s (Event.selectFile f)).fileInputFiles = [f] ∧
    (stepEvent s (Event.selectFile f)).cropModalHidden =
      s.cropModalHidden ∧
    (stepEvent s (Event.selectFile f)).cropper = s.cropper ∧
    (stepEvent (stepEvent (stepEvent s (Event.selectFile f))
        Event.selectReadResolve) Event.cancelClick).fileInputFiles =
      [f] := by
  simp [stepEvent, handleFileSelect, h, selectReadOnload, hideCropModal]

/-- Witness for C9: the sample photo passes validation and the scenario
holds from the existing-image initial state. -/
theorem select_writes_raw_file_first_witness :
    validateFile samplePhoto = none ∧
    ((stepEvent (initState true) (Event.selectFile samplePhoto)).fileInputFiles
        = [samplePhoto] ∧
    (stepEvent (initState true)
        (Event.selectFile samplePhoto)).cropModalHidden =
      (initState true).cropModalHidden ∧
    (stepEvent (initState true) (Event.selectFile samplePhoto)).cropper =
      (initState true).cropper ∧
    (stepEvent (stepEvent (stepEvent (initState true)
        (Event.selectFile samplePhoto)) Event.selectReadResolve)
        Event.cancelClick).fileInputFiles = [samplePhoto]) :=
  ⟨by decide, select_writes_raw_file_first (initState true) samplePhoto
      (by decide)⟩

/-- C10: a click whose target is the crop-modal element itself behaves
exactly as the cancel button (`hideCropModal`): the session is destroyed,
the modal hidden, and no result is produced (the file field is untouched);
a click on a child of the modal does nothing. -/
theorem backdrop_click_cancels (s : UIState) :
    stepEvent s (Event.backdropClick true) = stepEvent s Event.cancelClick ∧
    stepEvent s (Event.backdropClick true) = hideCropModal s ∧
    (stepEvent s (Event.backdropClick true)).cropper = none ∧
    (stepEvent s (Event.backdropClick true)).cropModalHidden = true ∧
    (stepEvent s (Event.backdropClick true)).fileInputFiles =
      s.fileInputFiles ∧
    stepEvent s (Event.backdropClick false) = s :=
  ⟨rfl, rfl, rfl, rfl, rfl, rfl⟩

end AgoraProfileImage
